import Mathlib

/-!
Shallow embedding of the grocery-store server (server.js): data model,
auth middleware, checkout handlers, SSE fan-out, and the admin CRUD
handlers, followed by theorems settling the spec claims.

External collaborators are modelled explicitly:
  - bcrypt is modelled by an injective placeholder digest;
  - jwt verification is modelled by an abstract credential that is either
    absent, rejected by verification (malformed or expired), or verified
    to its signed payload;
  - Date.now and the generated Mongo ids are passed in as explicit
    counters; each create consumes the next id;
  - the Mongo unique index on the user email (userSchema: unique true)
    makes User.create throw on a duplicate email, which the handlers
    surface as a 500 response.
-/

namespace Grocery

inductive Role where
  | user
  | admin
deriving Repr, DecidableEq

inductive OrderStatus where
  | pending
  | completed
  | cancelled
deriving Repr, DecidableEq

/-- Item snapshot embedded in an order (orderSchema.items). -/
structure OrderItem where
  productId : Nat
  name : String
  price : Int
  quantity : Int
deriving Repr, DecidableEq

/-- Delivery address snapshot embedded in an order (orderSchema.deliveryAddress). -/
structure DeliveryAddress where
  name : String
  phone : String
  line1 : String
  line2 : String
  city : String
  pincode : String
  lat : Option Int
  lng : Option Int
  notes : String
deriving Repr, DecidableEq

/-- Cart entry in the user document (userSchema.cart). -/
structure CartEntry where
  product : Nat
  quantity : Int
deriving Repr, DecidableEq

/-- Saved address in the user document (userSchema.addresses). -/
structure SavedAddress where
  label : String
  line1 : String
  line2 : String
  city : String
  pincode : String
  isDefault : Bool
deriving Repr, DecidableEq

/-- User document (userSchema). -/
structure User where
  id : Nat
  name : String
  email : String
  passwordHash : String
  phone : String
  role : Role
  cart : List CartEntry
  addresses : List SavedAddress
  createdAt : Nat
deriving Repr, DecidableEq

/-- Product document (productSchema). -/
structure Product where
  id : Nat
  name : String
  description : String
  price : Int
  category : String
  image : String
  unit : String
  createdAt : Nat
deriving Repr, DecidableEq

/-- Order document (orderSchema). Fields the request may omit are optional. -/
structure Order where
  id : Nat
  userId : Nat
  items : List OrderItem
  total : Option Int
  deliveryAddress : Option DeliveryAddress
  status : OrderStatus
  createdAt : Nat
deriving Repr, DecidableEq

/-- Whole store state: the three collections, the SSE client list and the
    id counter feeding document creation. -/
structure St where
  users : List User
  products : List Product
  orders : List Order
  sseClients : List Nat
  nextId : Nat
deriving Repr, DecidableEq

/-- Model of bcrypt.hash: an injective placeholder digest. -/
def bcryptHash (password : String) : String := "bcrypt$" ++ password

/-- Model of bcrypt.compare: succeeds exactly on the hashed password. -/
def bcryptCompare (password hash : String) : Bool := hash == bcryptHash password

/-- Truthiness of an optional string field of a JSON body: absent and the
    empty string are falsy, every other string is truthy. -/
def truthy : Option String → Bool
  | none => false
  | some s => s ≠ ""

/-- Digit accumulator for the model of Number(). -/
def digitsToNat : List Char → Nat → Nat
  | [], acc => acc
  | c :: cs, acc => digitsToNat cs (acc * 10 + (c.toNat - 48))

/-- Model of Number() on the integral numeric strings the admin form
    submits (decimals and NaN are not modelled). -/
def jsNumber (s : String) : Int :=
  match s.data with
  | '-' :: cs => - Int.ofNat (digitsToNat cs 0)
  | cs => Int.ofNat (digitsToNat cs 0)

/-- Abstract view of the Authorization header as jwt.verify sees it:
    either no header was supplied, or the carried token is rejected by
    verification (malformed or expired signature), or verification
    succeeds and yields the signed payload. -/
inductive Cred where
  | missing
  | badToken
  | verified (id : Nat) (role : Role) (name : String)
deriving Repr, DecidableEq

/-- Payload signed into a session token (jwt.sign in register and login). -/
structure Claims where
  id : Nat
  role : Role
  name : String
deriving Repr, DecidableEq

/-- authMiddleware: 401 when no header is present, 401 when jwt.verify
    throws, otherwise the decoded payload is attached to the request. -/
def authMiddleware (c : Cred) : Except (Nat × String) Claims :=
  match c with
  | .missing => .error (401, "No token")
  | .badToken => .error (401, "Invalid token")
  | .verified i r n => .ok ⟨i, r, n⟩

/-- adminMiddleware: 403 unless the decoded role is admin. -/
def adminMiddleware (u : Claims) : Except (Nat × String) Claims :=
  if u.role ≠ Role.admin then .error (403, "Admin only") else .ok u

/-- Order summary object handed to broadcastNewOrder by the checkout
    handlers. -/
structure OrderSummary where
  id : Nat
  userName : String
  deliveryAddress : Option DeliveryAddress
  items : List OrderItem
  total : Option Int
  createdAt : Nat
  status : OrderStatus
deriving Repr, DecidableEq

def serializeStatus : OrderStatus → String
  | .pending => "pending"
  | .completed => "completed"
  | .cancelled => "cancelled"

def serializeItem (it : OrderItem) : String :=
  "(productId=" ++ toString it.productId ++ ",name=" ++ it.name ++
    ",price=" ++ toString it.price ++ ",quantity=" ++ toString it.quantity ++ ")"

def serializeAddress : Option DeliveryAddress → String
  | none => "null"
  | some a =>
      "(name=" ++ a.name ++ ",phone=" ++ a.phone ++ ",line1=" ++ a.line1 ++
        ",line2=" ++ a.line2 ++ ",city=" ++ a.city ++ ",pincode=" ++ a.pincode ++
        ",notes=" ++ a.notes ++ ")"

def serializeTotal : Option Int → String
  | none => "null"
  | some n => toString n

/-- Model of the JSON serialization of the order summary. -/
def serializeSummary (o : OrderSummary) : String :=
  "(id=" ++ toString o.id ++ ",userName=" ++ o.userName ++
    ",deliveryAddress=" ++ serializeAddress o.deliveryAddress ++
    ",items=" ++ String.intercalate "," (o.items.map serializeItem) ++
    ",total=" ++ serializeTotal o.total ++
    ",createdAt=" ++ toString o.createdAt ++
    ",status=" ++ serializeStatus o.status ++ ")"

/-- SSE frame written to each subscriber. -/
def ssePayload (o : OrderSummary) : String :=
  "data: " ++ serializeSummary o ++ "\n\n"

/-- broadcastNewOrder: the payload is serialized once, then written to
    every currently registered subscriber; a write that throws on one
    subscriber is swallowed and the rest still receive the payload. The
    result lists the successful deliveries; writeFails says which
    subscriber connections throw on write. -/
def broadcastNewOrder (clients : List Nat) (writeFails : Nat → Bool)
    (o : OrderSummary) : List (Nat × String) :=
  let payload := ssePayload o
  (clients.filter (fun c => ! writeFails c)).map (fun c => (c, payload))

/-- GET /events: registers a subscriber; the route has no middleware, so
    the handler takes no credential at all. -/
def subscribeEvents (clientId : Nat) (s : St) : St :=
  { s with sseClients := s.sseClients ++ [clientId] }

/-- Request body shared by both checkout endpoints. -/
structure OrderBody where
  items : Option (List OrderItem)
  total : Option Int
  deliveryAddress : Option DeliveryAddress
deriving Repr, DecidableEq

/-- Result of a checkout handler: HTTP status, order id of the response
    body when created, resulting store state, and the SSE deliveries the
    broadcast produced. -/
structure CheckoutResult where
  status : Nat
  orderId : Option Nat
  state : St
  deliveries : List (Nat × String)
deriving Repr, DecidableEq

/-- Placeholder email generated for a guest checkout at time t. -/
def guestEmail (t : Nat) : String := "guest+" ++ toString t ++ "@local"

/-- POST /api/placeGuestOrder. t models Date.now, rnd the random string
    hashed into the throwaway credential, writeFails the SSE write
    outcomes. A duplicate generated email violates the unique index on
    user emails, so User.create throws and the handler answers 500. -/
def placeGuestOrder (t : Nat) (rnd : String) (writeFails : Nat → Bool)
    (b : OrderBody) (s : St) : CheckoutResult :=
  match b.items with
  | none => ⟨400, none, s, []⟩
  | some items =>
    if items.isEmpty then ⟨400, none, s, []⟩
    else if s.users.any (fun u => u.email = guestEmail t) then
      ⟨500, none, s, []⟩
    else
      let guest : User :=
        { id := s.nextId
          name := match b.deliveryAddress with
            | some a => if a.name = "" then "Guest" else a.name
            | none => "Guest"
          email := guestEmail t
          passwordHash := bcryptHash rnd
          phone := match b.deliveryAddress with
            | some a => a.phone
            | none => ""
          role := Role.user
          cart := []
          addresses := []
          createdAt := t }
      let order : Order :=
        { id := s.nextId + 1
          userId := guest.id
          items := items
          total := b.total
          deliveryAddress := b.deliveryAddress
          status := OrderStatus.pending
          createdAt := t }
      let deliveries := broadcastNewOrder s.sseClients writeFails
        { id := order.id
          userName := guest.name
          deliveryAddress := b.deliveryAddress
          items := items
          total := order.total
          createdAt := order.createdAt
          status := order.status }
      ⟨201, some order.id,
        { s with users := s.users ++ [guest]
                 orders := s.orders ++ [order]
                 nextId := s.nextId + 2 },
        deliveries⟩

/-- POST /api/orders handler body, after authMiddleware attached the
    claims u. -/
def placeOrder (t : Nat) (writeFails : Nat → Bool) (u : Claims)
    (b : OrderBody) (s : St) : CheckoutResult :=
  match b.items with
  | none => ⟨400, none, s, []⟩
  | some items =>
    if items.isEmpty then ⟨400, none, s, []⟩
    else
      match s.users.find? (fun w => w.id = u.id) with
      | none => ⟨404, none, s, []⟩
      | some usr =>
        let order : Order :=
          { id := s.nextId
            userId := usr.id
            items := items
            total := b.total
            deliveryAddress := b.deliveryAddress
            status := OrderStatus.pending
            createdAt := t }
        let deliveries := broadcastNewOrder s.sseClients writeFails
          { id := order.id
            userName := usr.name
            deliveryAddress := order.deliveryAddress
            items := items
            total := order.total
            createdAt := order.createdAt
            status := order.status }
        ⟨201, some order.id,
          { s with orders := s.orders ++ [order], nextId := s.nextId + 1 },
          deliveries⟩

/-- Request body of POST /api/auth/register. -/
structure RegisterBody where
  name : Option String
  email : Option String
  password : Option String
  phone : Option String
deriving Repr, DecidableEq

/-- Result of the register handler: HTTP status, id of the created user
    when one was created, resulting state. -/
structure RegisterResult where
  status : Nat
  newUserId : Option Nat
  state : St
deriving Repr, DecidableEq

/-- POST /api/auth/register: requires truthy name, email and password,
    rejects an existing email with 400, otherwise creates the user with
    the hashed password and the default user role. -/
def register (t : Nat) (b : RegisterBody) (s : St) : RegisterResult :=
  if ¬ truthy b.name ∨ ¬ truthy b.email ∨ ¬ truthy b.password then
    ⟨400, none, s⟩
  else
    match s.users.find? (fun u => u.email = b.email.getD "") with
    | some _ => ⟨400, none, s⟩
    | none =>
      let user : User :=
        { id := s.nextId
          name := b.name.getD ""
          email := b.email.getD ""
          passwordHash := bcryptHash (b.password.getD "")
          phone := b.phone.getD ""
          role := Role.user
          cart := []
          addresses := []
          createdAt := t }
      ⟨201, some user.id,
        { s with users := s.users ++ [user], nextId := s.nextId + 1 }⟩

/-- Request body of PUT /api/auth/profile. -/
structure ProfileBody where
  email : Option String
  currentPassword : Option String
  newPassword : Option String
deriving Repr, DecidableEq

/-- PUT /api/auth/profile handler body, after authMiddleware attached the
    claims u: checks the current password against the stored hash, then
    sets the email if one was sent and the password hash if a new
    password was sent, and saves the document. -/
def updateProfile (u : Claims) (b : ProfileBody) (s : St) : Nat × St :=
  match s.users.find? (fun w => w.id = u.id) with
  | none => (404, s)
  | some usr =>
    if ¬ bcryptCompare (b.currentPassword.getD "") usr.passwordHash then
      (401, s)
    else
      let usr1 := if truthy b.email then { usr with email := b.email.getD "" } else usr
      let usr2 :=
        if truthy b.newPassword then
          { usr1 with passwordHash := bcryptHash (b.newPassword.getD "") }
        else usr1
      (200, { s with users := s.users.map (fun w => if w.id = u.id then usr2 else w) })

/-- Multipart body of the admin product routes; file is the Cloudinary
    secure url obtained for an uploaded image, when one was sent. -/
structure ProductBody where
  name : Option String
  description : Option String
  price : Option String
  category : Option String
  unit : Option String
deriving Repr, DecidableEq

/-- Update object built by PUT /api/admin/products/:id: undefined fields
    are removed, price is converted when present and nonempty, image is
    set only when a new file was uploaded. -/
structure ProdUpdate where
  name : Option String
  description : Option String
  price : Option Int
  category : Option String
  unit : Option String
  image : Option String
deriving Repr, DecidableEq

def buildProductUpdate (b : ProductBody) (file : Option String) : ProdUpdate :=
  { name := b.name
    description := b.description
    price := match b.price with
      | some p => if p ≠ "" then some (jsNumber p) else none
      | none => none
    category := b.category
    unit := b.unit
    image := file }

/-- findByIdAndUpdate semantics: fields present in the update object are
    set, the rest keep their prior values. -/
def applyProdUpdate (u : ProdUpdate) (p : Product) : Product :=
  { p with
    name := u.name.getD p.name
    description := u.description.getD p.description
    price := u.price.getD p.price
    category := u.category.getD p.category
    unit := u.unit.getD p.unit
    image := u.image.getD p.image }

/-- GET /api/admin/orders handler body. -/
def adminListOrders (s : St) : Nat × St := (200, s)

/-- DELETE /api/admin/orders/:id handler body: findByIdAndDelete with no
    existence check and no status guard, then success. -/
def deleteOrderHandler (id : Nat) (s : St) : Nat × St :=
  (200, { s with orders := s.orders.filter (fun o => o.id ≠ id) })

/-- PUT /api/admin/orders/:id/status handler body: a falsy submitted
    status falls back to completed; 404 when the order does not exist. -/
def updateOrderStatusHandler (id : Nat) (st : Option OrderStatus) (s : St) :
    Nat × St :=
  if s.orders.any (fun o => o.id = id) then
    (200, { s with orders := s.orders.map fun o =>
        if o.id = id then { o with status := st.getD OrderStatus.completed } else o })
  else (404, s)

/-- POST /api/admin/products handler body: requires truthy name and
    price, stores the uploaded image url or the empty string. -/
def createProductHandler (t : Nat) (b : ProductBody) (file : Option String)
    (s : St) : Nat × St :=
  if ¬ truthy b.name ∨ ¬ truthy b.price then (400, s)
  else
    (201, { s with
      products := s.products ++
        [{ id := s.nextId
           name := b.name.getD ""
           description := b.description.getD ""
           price := jsNumber (b.price.getD "")
           category := b.category.getD ""
           unit := b.unit.getD ""
           image := file.getD ""
           createdAt := t }]
      nextId := s.nextId + 1 })

/-- PUT /api/admin/products/:id handler body: partial update of the
    matched product, 404 when the product does not exist. -/
def updateProductHandler (id : Nat) (b : ProductBody) (file : Option String)
    (s : St) : Nat × St :=
  if s.products.any (fun p => p.id = id) then
    (200, { s with products := s.products.map fun p =>
        if p.id = id then applyProdUpdate (buildProductUpdate b file) p else p })
  else (404, s)

/-- DELETE /api/admin/products/:id handler body: 404 when
    findByIdAndDelete matched nothing, success otherwise. -/
def deleteProductHandler (id : Nat) (s : St) : Nat × St :=
  if s.products.any (fun p => p.id = id) then
    (200, { s with products := s.products.filter (fun p => p.id ≠ id) })
  else (404, s)

/-- The requests served under /api/admin/*. -/
inductive AdminRequest where
  | listOrders
  | deleteOrder (id : Nat)
  | updateOrderStatus (id : Nat) (st : Option OrderStatus)
  | createProduct (b : ProductBody) (file : Option String)
  | updateProduct (id : Nat) (b : ProductBody) (file : Option String)
  | deleteProduct (id : Nat)
deriving Repr, DecidableEq

/-- Handler bodies of the admin routes. -/
def adminHandler (t : Nat) : AdminRequest → St → Nat × St
  | .listOrders => adminListOrders
  | .deleteOrder i => deleteOrderHandler i
  | .updateOrderStatus i st => updateOrderStatusHandler i st
  | .createProduct b f => createProductHandler t b f
  | .updateProduct i b f => updateProductHandler i b f
  | .deleteProduct i => deleteProductHandler i

/-- An /api/admin/* route: authMiddleware, then adminMiddleware, then the
    guarded handler. A middleware failure answers immediately and the
    handler never runs. -/
def adminRoute (t : Nat) (c : Cred) (r : AdminRequest) (s : St) : Nat × St :=
  match authMiddleware c with
  | .error e => (e.1, s)
  | .ok u =>
    match adminMiddleware u with
    | .error e => (e.1, s)
    | .ok _ => adminHandler t r s

/-! Helper lemmas shared by the claim theorems. -/

/-- Every successful delivery of a broadcast carries the one serialized
    payload and goes to a subscriber registered at broadcast time whose
    write did not throw. -/
lemma broadcast_mem {clients : List Nat} {wfail : Nat → Bool} {o : OrderSummary}
    {d : Nat × String} (hd : d ∈ broadcastNewOrder clients wfail o) :
    d.2 = ssePayload o ∧ d.1 ∈ clients ∧ wfail d.1 = false := by
  rcases List.mem_map.mp hd with ⟨c, hc, rfl⟩
  rcases List.mem_filter.mp hc with ⟨hcm, hcf⟩
  exact ⟨rfl, hcm, by simpa using hcf⟩

/-- A registered subscriber whose write does not throw receives the
    payload. -/
lemma broadcast_delivers {clients : List Nat} {wfail : Nat → Bool} {o : OrderSummary}
    {c : Nat} (hc : c ∈ clients) (hw : wfail c = false) :
    (c, ssePayload o) ∈ broadcastNewOrder clients wfail o :=
  List.mem_map.mpr ⟨c, List.mem_filter.mpr ⟨hc, by simp [hw]⟩, rfl⟩

/-- find? over an update-by-id map: the first match of the original list
    is the first match of the mapped list, with the update applied. -/
lemma find?_map_update_key {α : Type} (key : α → Nat) (k : Nat) (f : α → α)
    (hf : ∀ a, key a = k → key (f a) = k) (l : List α) :
    (l.map fun x => if key x = k then f x else x).find? (fun x => key x = k)
      = (l.find? (fun x => key x = k)).map f := by
  induction l with
  | nil => rfl
  | cons a l ih =>
    by_cases h : key a = k
    · rw [List.map_cons, if_pos h, List.find?_cons, List.find?_cons]
      simp [h, hf a h]
    · rw [List.map_cons, if_neg h, List.find?_cons, List.find?_cons]
      simp [h, ih]

/-- An element whose id differs from the updated id survives the update
    map unchanged. -/
lemma mem_map_update_of_ne {α : Type} (key : α → Nat) (k : Nat) (f : α → α)
    {l : List α} {w : α} (hw : w ∈ l) (hp : key w ≠ k) :
    w ∈ l.map fun x => if key x = k then f x else x :=
  List.mem_map.mpr ⟨w, hw, by rw [if_neg hp]⟩

/-- An element of the mapped list whose id differs from the updated id
    was already in the original list. -/
lemma mem_of_mem_map_update_ne {α : Type} (key : α → Nat) (k : Nat) (f : α → α)
    (hf : ∀ a, key a = k → key (f a) = k) {l : List α} {w : α}
    (hw : w ∈ l.map fun x => if key x = k then f x else x) (hp : key w ≠ k) :
    w ∈ l := by
  rcases List.mem_map.mp hw with ⟨x, hx, hfx⟩
  by_cases h : key x = k
  · rw [if_pos h] at hfx
    subst hfx
    exact absurd (hf x h) hp
  · rw [if_neg h] at hfx
    subst hfx
    exact hx

/-- An update-by-id map that rewrites every match to the value it already
    holds is the identity. -/
lemma map_update_id_key {α : Type} (key : α → Nat) (k : Nat) (v : α) {l : List α}
    (h : ∀ w ∈ l, key w = k → w = v) :
    (l.map fun x => if key x = k then v else x) = l := by
  have hcong : ∀ w ∈ l, (if key w = k then v else w) = id w := by
    intro w hw
    by_cases hp : key w = k
    · rw [if_pos hp, (h w hw hp)]
      rfl
    · rw [if_neg hp]
      rfl
  rw [List.map_congr_left hcong, List.map_id]

/-- Two users of a duplicate-free collection sharing an id are the same
    document. -/
lemma pairwise_ids_eq {l : List User} (hpw : l.Pairwise fun a b => a.id ≠ b.id)
    {u v : User} (hu : u ∈ l) (hv : v ∈ l) (he : u.id = v.id) : u = v := by
  induction l with
  | nil => cases hu
  | cons a tl ih =>
    rcases List.pairwise_cons.mp hpw with ⟨ha, htl⟩
    rcases List.mem_cons.mp hu with hu1 | hu2
    · rcases List.mem_cons.mp hv with hv1 | hv2
      · rw [hu1, hv1]
      · subst hu1
        exact absurd he (ha v hv2)
    · rcases List.mem_cons.mp hv with hv1 | hv2
      · subst hv1
        exact absurd he.symm (ha u hu2)
      · exact ih htl hu2 hv2

/-- C3: every /api/admin/* route answers 401 when no bearer credential is
supplied and 401 when the supplied credential is malformed or expired;
when verification succeeds but the carried role is not admin it answers
403; in each case the store state is untouched, so the guarded handler
never ran. -/
theorem C3_admin_gate (t : Nat) (r : AdminRequest) (s : St) :
    adminRoute t Cred.missing r s = (401, s)
    ∧ adminRoute t Cred.badToken r s = (401, s)
    ∧ ∀ (i : Nat) (n : String),
        adminRoute t (Cred.verified i Role.user n) r s = (403, s) := by
  refine ⟨rfl, rfl, fun i n => ?_⟩
  simp [adminRoute, authMiddleware, adminMiddleware]

/-- C3 witness: concrete admin request under each failing credential. -/
theorem C3_admin_gate_witness :
    adminRoute 0 Cred.missing (AdminRequest.deleteOrder 3) ⟨[], [], [], [], 0⟩
      = (401, ⟨[], [], [], [], 0⟩)
    ∧ adminRoute 0 (Cred.verified 1 Role.user "u") (AdminRequest.deleteOrder 3)
        ⟨[], [], [], [], 0⟩ = (403, ⟨[], [], [], [], 0⟩) :=
  ⟨(C3_admin_gate 0 (AdminRequest.deleteOrder 3) ⟨[], [], [], [], 0⟩).1,
   (C3_admin_gate 0 (AdminRequest.deleteOrder 3) ⟨[], [], [], [], 0⟩).2.2 1 "u"⟩

/-- C5: a checkout request, guest or authenticated, whose submitted item
list is missing or empty answers 400 and persists nothing: the state is
returned unchanged and no broadcast is made. -/
theorem C5_empty_items_rejected (t : Nat) (rnd : String) (wfail : Nat → Bool)
    (u : Claims) (b : OrderBody) (s : St)
    (hb : b.items = none ∨ b.items = some []) :
    placeGuestOrder t rnd wfail b s = ⟨400, none, s, []⟩
    ∧ placeOrder t wfail u b s = ⟨400, none, s, []⟩ := by
  rcases hb with hb | hb <;> simp [placeGuestOrder, placeOrder, hb]

/-- C5 witness: concrete checkout bodies with an empty item list. -/
theorem C5_empty_items_rejected_witness :
    placeGuestOrder 0 "r" (fun _ => false) ⟨some [], some 0, none⟩ ⟨[], [], [], [], 0⟩
      = ⟨400, none, ⟨[], [], [], [], 0⟩, []⟩
    ∧ placeOrder 0 (fun _ => false) ⟨0, Role.user, "u"⟩ ⟨some [], some 0, none⟩
        ⟨[], [], [], [], 0⟩ = ⟨400, none, ⟨[], [], [], [], 0⟩, []⟩ :=
  C5_empty_items_rejected 0 "r" (fun _ => false) ⟨0, Role.user, "u"⟩
    ⟨some [], some 0, none⟩ ⟨[], [], [], [], 0⟩ (Or.inr rfl)

/-- C6 counterexample: admin product delete of an id with no matching
product answers 404 and not success, so product delete is conditional on
identifier existence. -/
theorem C6_counterexample :
    (adminRoute 0 (Cred.verified 1 Role.admin "A") (AdminRequest.deleteProduct 1)
        ⟨[], [], [], [], 0⟩).1 = 404
    ∧ (adminRoute 0 (Cred.verified 1 Role.admin "A") (AdminRequest.deleteProduct 1)
        ⟨[], [], [], [], 0⟩).1 ≠ 200 := by
  exact ⟨rfl, by decide⟩

/-- C6 (amended): admin order delete succeeds whether or not an order
with the identifier exists and applies no status guard, removing a
pending order exactly like a completed or cancelled one; admin product
delete answers 404 when no product carries the identifier, and removes
the product and succeeds when one does. -/
theorem C6_amended_delete_semantics (t i : Nat) (n : String) (s : St) (id : Nat) :
    (adminRoute t (Cred.verified i Role.admin n) (AdminRequest.deleteOrder id) s).1 = 200
    ∧ (∀ o ∈ s.orders, o.id ≠ id →
        o ∈ (adminRoute t (Cred.verified i Role.admin n) (AdminRequest.deleteOrder id) s).2.orders)
    ∧ (∀ o ∈ (adminRoute t (Cred.verified i Role.admin n) (AdminRequest.deleteOrder id) s).2.orders,
        o ∈ s.orders ∧ o.id ≠ id)
    ∧ (∀ o ∈ s.orders, o.id = id →
        o ∉ (adminRoute t (Cred.verified i Role.admin n) (AdminRequest.deleteOrder id) s).2.orders)
    ∧ (((adminRoute t (Cred.verified i Role.admin n) (AdminRequest.deleteProduct id) s).1 = 200)
        ↔ ∃ p ∈ s.products, p.id = id)
    ∧ ((¬ ∃ p ∈ s.products, p.id = id) →
        adminRoute t (Cred.verified i Role.admin n) (AdminRequest.deleteProduct id) s = (404, s))
    ∧ (∀ p ∈ (adminRoute t (Cred.verified i Role.admin n) (AdminRequest.deleteProduct id) s).2.products,
        p ∈ s.products ∧ p.id ≠ id) := by
  have hgate : ∀ r : AdminRequest,
      adminRoute t (Cred.verified i Role.admin n) r s = adminHandler t r s :=
    fun r => rfl
  rw [hgate, hgate]
  refine ⟨rfl, ?_, ?_, ?_, ?_, ?_, ?_⟩
  · intro o ho hne
    exact List.mem_filter.mpr ⟨ho, by simpa using hne⟩
  · intro o ho
    have := List.mem_filter.mp ho
    exact ⟨this.1, by simpa using this.2⟩
  · intro o ho heq hmem
    have := List.mem_filter.mp hmem
    exact absurd heq (by simpa using this.2)
  · by_cases hc : s.products.any (fun p => p.id = id) = true
    · constructor
      · intro _
        simpa using List.any_eq_true.mp hc
      · intro _
        simp [adminHandler, deleteProductHandler, hc]
    · constructor
      · intro h200
        exfalso
        have : adminHandler t (AdminRequest.deleteProduct id) s = (404, s) := by
          simp [adminHandler, deleteProductHandler, hc]
        rw [this] at h200
        simp at h200
      · intro hex
        exact absurd (List.any_eq_true.mpr (by simpa using hex)) hc
  · intro hnex
    have hc : s.products.any (fun p => p.id = id) = false := by
      rcases Bool.eq_false_or_eq_true (s.products.any (fun p => p.id = id)) with h | h
      · exact absurd (by simpa using List.any_eq_true.mp h) hnex
      · exact h
    simp [adminHandler, deleteProductHandler, hc]
  · by_cases hc : s.products.any (fun p => p.id = id) = true
    · intro p hp
      have hm : p ∈ s.products.filter (fun q => q.id ≠ id) := by
        simpa [adminHandler, deleteProductHandler, hc] using hp
      have := List.mem_filter.mp hm
      exact ⟨this.1, by simpa using this.2⟩
    · intro p hp
      have hm : p ∈ s.products := by
        simpa [adminHandler, deleteProductHandler, hc] using hp
      refine ⟨hm, ?_⟩
      intro heq
      have : s.products.any (fun q => q.id = id) = true :=
        List.any_eq_true.mpr ⟨p, hm, by simpa using heq⟩
      exact hc this

/-- C6 witness: a state holding one pending order and one product; the
order delete removes the pending order and the product delete removes
the product. -/
theorem C6_amended_delete_semantics_witness :
    (adminRoute 0 (Cred.verified 1 Role.admin "A") (AdminRequest.deleteOrder 5)
      ⟨[], [⟨7, "Rice", "", 90, "Essentials", "", "", 0⟩],
        [⟨5, 2, [], some 180, none, OrderStatus.pending, 0⟩], [], 10⟩).1 = 200
    ∧ (((adminRoute 0 (Cred.verified 1 Role.admin "A") (AdminRequest.deleteProduct 7)
      ⟨[], [⟨7, "Rice", "", 90, "Essentials", "", "", 0⟩],
        [⟨5, 2, [], some 180, none, OrderStatus.pending, 0⟩], [], 10⟩).1 = 200)
        ↔ ∃ p ∈ [Product.mk 7 "Rice" "" 90 "Essentials" "" "" 0], p.id = 7) :=
  ⟨(C6_amended_delete_semantics 0 1 "A"
      ⟨[], [⟨7, "Rice", "", 90, "Essentials", "", "", 0⟩],
        [⟨5, 2, [], some 180, none, OrderStatus.pending, 0⟩], [], 10⟩ 5).1,
   (C6_amended_delete_semantics 0 1 "A"
      ⟨[], [⟨7, "Rice", "", 90, "Essentials", "", "", 0⟩],
        [⟨5, 2, [], some 180, none, OrderStatus.pending, 0⟩], [], 10⟩ 7).2.2.2.2.1⟩

/-- C1: checkout, guest or authenticated, with a nonempty item list
persists an order whose item snapshot, total and delivery address equal
exactly the submitted values, answers 201 with the new order identifier,
performs no recomputation or validation against the catalog (the whole
outcome is invariant under replacing the catalog), and the stored
snapshot is unaffected by any later product update, delete or create. -/
theorem C1_checkout_snapshot (s : St) (t : Nat) (rnd : String) (wfail : Nat → Bool)
    (b : OrderBody) (items : List OrderItem) (u : Claims)
    (hib : b.items = some items) (hne : items ≠ []) :
    ((∀ w ∈ s.users, w.email ≠ guestEmail t) →
      (placeGuestOrder t rnd wfail b s).status = 201
      ∧ (placeGuestOrder t rnd wfail b s).orderId = some (s.nextId + 1)
      ∧ (∃ o : Order,
          (placeGuestOrder t rnd wfail b s).state.orders = s.orders ++ [o]
          ∧ o.items = items ∧ o.total = b.total ∧ o.deliveryAddress = b.deliveryAddress
          ∧ (placeGuestOrder t rnd wfail b s).orderId = some o.id)
      ∧ (∀ ps : List Product,
          (placeGuestOrder t rnd wfail b { s with products := ps }).status
            = (placeGuestOrder t rnd wfail b s).status
          ∧ (placeGuestOrder t rnd wfail b { s with products := ps }).orderId
            = (placeGuestOrder t rnd wfail b s).orderId
          ∧ (placeGuestOrder t rnd wfail b { s with products := ps }).state.orders
            = (placeGuestOrder t rnd wfail b s).state.orders))
    ∧ (∀ usr, s.users.find? (fun w => w.id = u.id) = some usr →
      (placeOrder t wfail u b s).status = 201
      ∧ (placeOrder t wfail u b s).orderId = some s.nextId
      ∧ (∃ o : Order,
          (placeOrder t wfail u b s).state.orders = s.orders ++ [o]
          ∧ o.items = items ∧ o.total = b.total ∧ o.deliveryAddress = b.deliveryAddress
          ∧ (placeOrder t wfail u b s).orderId = some o.id)
      ∧ (∀ ps : List Product,
          (placeOrder t wfail u b { s with products := ps }).status
            = (placeOrder t wfail u b s).status
          ∧ (placeOrder t wfail u b { s with products := ps }).orderId
            = (placeOrder t wfail u b s).orderId
          ∧ (placeOrder t wfail u b { s with products := ps }).state.orders
            = (placeOrder t wfail u b s).state.orders))
    ∧ (∀ (s2 : St) (pid : Nat) (pb : ProductBody) (pf : Option String) (t2 : Nat),
        (updateProductHandler pid pb pf s2).2.orders = s2.orders
        ∧ (deleteProductHandler pid s2).2.orders = s2.orders
        ∧ (createProductHandler t2 pb pf s2).2.orders = s2.orders) := by
  have hie : items.isEmpty = false := by
    cases items with
    | nil => exact absurd rfl hne
    | cons a l => rfl
  refine ⟨?_, ?_, ?_⟩
  · intro hfresh
    have hany : (s.users.any fun w => w.email = guestEmail t) = false := by
      rcases Bool.eq_false_or_eq_true (s.users.any fun w => w.email = guestEmail t) with h | h
      · rcases List.any_eq_true.mp h with ⟨w, hw, he⟩
        exact absurd (of_decide_eq_true he) (hfresh w hw)
      · exact h
    refine ⟨?_, ?_, ?_, ?_⟩
    · simp [placeGuestOrder, hib, hie, hany]
    · simp [placeGuestOrder, hib, hie, hany]
    · simp only [placeGuestOrder, hib, hie, hany]
      exact ⟨_, rfl, rfl, rfl, rfl, rfl⟩
    · intro ps
      refine ⟨?_, ?_, ?_⟩ <;> simp [placeGuestOrder, hib, hie, hany]
  · intro usr hfind
    refine ⟨?_, ?_, ?_, ?_⟩
    · simp [placeOrder, hib, hie, hfind]
    · simp [placeOrder, hib, hie, hfind]
    · simp only [placeOrder, hib, hie, hfind]
      exact ⟨_, rfl, rfl, rfl, rfl, rfl⟩
    · intro ps
      refine ⟨?_, ?_, ?_⟩ <;> simp [placeOrder, hib, hie, hfind]
  · intro s2 pid pb pf t2
    refine ⟨?_, ?_, ?_⟩
    · unfold updateProductHandler
      split <;> rfl
    · unfold deleteProductHandler
      split <;> rfl
    · unfold createProductHandler
      split <;> rfl

/-- C1 witness: concrete guest and authenticated checkouts, each with one
item, answer 201. -/
theorem C1_checkout_snapshot_witness :
    (placeGuestOrder 42 "r" (fun _ => false)
        ⟨some [⟨7, "Rice", 90, 2⟩], some 180, none⟩ ⟨[], [], [], [5], 10⟩).status = 201
    ∧ (placeOrder 42 (fun _ => false) ⟨3, Role.user, "u"⟩
        ⟨some [⟨7, "Rice", 90, 2⟩], some 180, none⟩
        ⟨[⟨3, "U", "u@x", "h", "", Role.user, [], [], 0⟩], [], [], [5], 10⟩).status = 201 :=
  ⟨((C1_checkout_snapshot ⟨[], [], [], [5], 10⟩ 42 "r" (fun _ => false)
      ⟨some [⟨7, "Rice", 90, 2⟩], some 180, none⟩ [⟨7, "Rice", 90, 2⟩] ⟨3, Role.user, "u"⟩
      rfl (by decide)).1 (by simp)).1,
   ((C1_checkout_snapshot ⟨[⟨3, "U", "u@x", "h", "", Role.user, [], [], 0⟩], [], [], [5], 10⟩
      42 "r" (fun _ => false) ⟨some [⟨7, "Rice", 90, 2⟩], some 180, none⟩
      [⟨7, "Rice", 90, 2⟩] ⟨3, Role.user, "u"⟩ rfl (by decide)).2.1
      ⟨3, "U", "u@x", "h", "", Role.user, [], [], 0⟩ rfl).1⟩

/-- C2: for a checkout that persists the order, per-subscriber write
failures never change the response or the stored state; the broadcast
serializes one payload, writes it to exactly the subscribers registered
at broadcast time whose writes do not throw, and a client not registered
at broadcast time receives nothing. -/
theorem C2_broadcast_best_effort (s : St) (t : Nat) (rnd : String) (wfail : Nat → Bool)
    (b : OrderBody) (items : List OrderItem) (u : Claims)
    (hib : b.items = some items) (hne : items ≠ []) :
    ((∀ w ∈ s.users, w.email ≠ guestEmail t) →
      (placeGuestOrder t rnd wfail b s).status = 201
      ∧ (placeGuestOrder t rnd wfail b s).status
          = (placeGuestOrder t rnd (fun _ => false) b s).status
      ∧ (placeGuestOrder t rnd wfail b s).orderId
          = (placeGuestOrder t rnd (fun _ => false) b s).orderId
      ∧ (placeGuestOrder t rnd wfail b s).state
          = (placeGuestOrder t rnd (fun _ => false) b s).state
      ∧ (∃ payload : String,
          ∀ d ∈ (placeGuestOrder t rnd wfail b s).deliveries, d.2 = payload)
      ∧ (∀ d ∈ (placeGuestOrder t rnd wfail b s).deliveries,
          d.1 ∈ s.sseClients ∧ wfail d.1 = false)
      ∧ (∀ c, c ∉ s.sseClients →
          ∀ pay, (c, pay) ∉ (placeGuestOrder t rnd wfail b s).deliveries)
      ∧ (∀ c ∈ s.sseClients, wfail c = false →
          ∃ pay, (c, pay) ∈ (placeGuestOrder t rnd wfail b s).deliveries))
    ∧ (∀ usr, s.users.find? (fun w => w.id = u.id) = some usr →
      (placeOrder t wfail u b s).status = 201
      ∧ (placeOrder t wfail u b s).status
          = (placeOrder t (fun _ => false) u b s).status
      ∧ (placeOrder t wfail u b s).orderId
          = (placeOrder t (fun _ => false) u b s).orderId
      ∧ (placeOrder t wfail u b s).state
          = (placeOrder t (fun _ => false) u b s).state
      ∧ (∃ payload : String,
          ∀ d ∈ (placeOrder t wfail u b s).deliveries, d.2 = payload)
      ∧ (∀ d ∈ (placeOrder t wfail u b s).deliveries,
          d.1 ∈ s.sseClients ∧ wfail d.1 = false)
      ∧ (∀ c, c ∉ s.sseClients →
          ∀ pay, (c, pay) ∉ (placeOrder t wfail u b s).deliveries)
      ∧ (∀ c ∈ s.sseClients, wfail c = false →
          ∃ pay, (c, pay) ∈ (placeOrder t wfail u b s).deliveries)) := by
  have hie : items.isEmpty = false := by
    cases items with
    | nil => exact absurd rfl hne
    | cons a l => rfl
  constructor
  · intro hfresh
    have hany : (s.users.any fun w => w.email = guestEmail t) = false := by
      rcases Bool.eq_false_or_eq_true (s.users.any fun w => w.email = guestEmail t) with h | h
      · rcases List.any_eq_true.mp h with ⟨w, hw, he⟩
        exact absurd (of_decide_eq_true he) (hfresh w hw)
      · exact h
    have hdel : (placeGuestOrder t rnd wfail b s).deliveries
        = broadcastNewOrder s.sseClients wfail
            { id := s.nextId + 1
              userName := match b.deliveryAddress with
                | some a => if a.name = "" then "Guest" else a.name
                | none => "Guest"
              deliveryAddress := b.deliveryAddress
              items := items
              total := b.total
              createdAt := t
              status := OrderStatus.pending } := by
      simp [placeGuestOrder, hib, hie, hany]
    refine ⟨?_, ?_, ?_, ?_, ?_, ?_, ?_, ?_⟩
    · simp [placeGuestOrder, hib, hie, hany]
    · simp [placeGuestOrder, hib, hie, hany]
    · simp [placeGuestOrder, hib, hie, hany]
    · simp [placeGuestOrder, hib, hie, hany]
    · rw [hdel]
      exact ⟨_, fun d hd => (broadcast_mem hd).1⟩
    · rw [hdel]
      exact fun d hd => ⟨(broadcast_mem hd).2.1, (broadcast_mem hd).2.2⟩
    · rw [hdel]
      exact fun c hc pay hmem => hc (broadcast_mem hmem).2.1
    · rw [hdel]
      exact fun c hc hw => ⟨_, broadcast_delivers hc hw⟩
  · intro usr hfind
    have hdel : (placeOrder t wfail u b s).deliveries
        = broadcastNewOrder s.sseClients wfail
            { id := s.nextId
              userName := usr.name
              deliveryAddress := b.deliveryAddress
              items := items
              total := b.total
              createdAt := t
              status := OrderStatus.pending } := by
      simp [placeOrder, hib, hie, hfind]
    refine ⟨?_, ?_, ?_, ?_, ?_, ?_, ?_, ?_⟩
    · simp [placeOrder, hib, hie, hfind]
    · simp [placeOrder, hib, hie, hfind]
    · simp [placeOrder, hib, hie, hfind]
    · simp [placeOrder, hib, hie, hfind]
    · rw [hdel]
      exact ⟨_, fun d hd => (broadcast_mem hd).1⟩
    · rw [hdel]
      exact fun d hd => ⟨(broadcast_mem hd).2.1, (broadcast_mem hd).2.2⟩
    · rw [hdel]
      exact fun c hc pay hmem => hc (broadcast_mem hmem).2.1
    · rw [hdel]
      exact fun c hc hw => ⟨_, broadcast_delivers hc hw⟩

/-- C2 witness: with one registered subscriber and a failing write on a
different connection, the concrete guest checkout still answers 201 and
the subscriber still receives a payload. -/
theorem C2_broadcast_best_effort_witness :
    (placeGuestOrder 42 "r" (fun c => c == 9)
        ⟨some [⟨7, "Rice", 90, 2⟩], some 180, none⟩ ⟨[], [], [], [5], 10⟩).status = 201
    ∧ ∃ pay, (5, pay) ∈ (placeGuestOrder 42 "r" (fun c => c == 9)
        ⟨some [⟨7, "Rice", 90, 2⟩], some 180, none⟩ ⟨[], [], [], [5], 10⟩).deliveries :=
  ⟨((C2_broadcast_best_effort ⟨[], [], [], [5], 10⟩ 42 "r" (fun c => c == 9)
      ⟨some [⟨7, "Rice", 90, 2⟩], some 180, none⟩ [⟨7, "Rice", 90, 2⟩]
      ⟨0, Role.user, "u"⟩ rfl (by decide)).1 (by simp)).1,
   ((C2_broadcast_best_effort ⟨[], [], [], [5], 10⟩ 42 "r" (fun c => c == 9)
      ⟨some [⟨7, "Rice", 90, 2⟩], some 180, none⟩ [⟨7, "Rice", 90, 2⟩]
      ⟨0, Role.user, "u"⟩ rfl (by decide)).1 (by simp)).2.2.2.2.2.2.2 5
      (by decide) rfl⟩

/-- C4 counterexample: a guest checkout with a nonempty item list at a
timestamp whose generated placeholder email already belongs to an
existing account (for instance a second guest checkout in the same
millisecond) synthesizes no account at all: account creation violates
the unique email index, the handler answers 500 and nothing is
persisted, so the claimed always-synthesized unique-email account does
not exist for this request. -/
theorem C4_counterexample :
    (placeGuestOrder 5 "r" (fun _ => false)
        ⟨some [⟨7, "Rice", 90, 2⟩], some 180, none⟩
        ⟨[⟨0, "G", "guest+5@local", "h", "", Role.user, [], [], 5⟩], [], [], [], 10⟩).status
      = 500
    ∧ (placeGuestOrder 5 "r" (fun _ => false)
        ⟨some [⟨7, "Rice", 90, 2⟩], some 180, none⟩
        ⟨[⟨0, "G", "guest+5@local", "h", "", Role.user, [], [], 5⟩], [], [], [], 10⟩).state
      = ⟨[⟨0, "G", "guest+5@local", "h", "", Role.user, [], [], 5⟩], [], [], [], 10⟩ := by
  constructor <;> rfl

/-- C4 (amended): the placeholder email of a guest checkout is determined
by the request timestamp as guest+millis@local; when no existing account
holds that email, the checkout synthesizes the throwaway account with
that email and a hashed random credential — so on success the
placeholder email differs from the email of every pre-existing account,
guest or registered — and the persisted order references the synthesized
account; when an existing account already holds the generated email, the
checkout fails with 500 and persists neither an account nor an order. -/
theorem C4_amended_guest_account (s : St) (t : Nat) (rnd : String) (wfail : Nat → Bool)
    (b : OrderBody) (items : List OrderItem)
    (hib : b.items = some items) (hne : items ≠ []) :
    ((∀ w ∈ s.users, w.email ≠ guestEmail t) →
      (placeGuestOrder t rnd wfail b s).status = 201
      ∧ (∃ guest : User,
          (placeGuestOrder t rnd wfail b s).state.users = s.users ++ [guest]
          ∧ guest.email = guestEmail t
          ∧ guest.passwordHash = bcryptHash rnd
          ∧ guest.role = Role.user
          ∧ (∀ w ∈ s.users, w.email ≠ guest.email)
          ∧ (∃ o : Order,
              (placeGuestOrder t rnd wfail b s).state.orders = s.orders ++ [o]
              ∧ o.userId = guest.id
              ∧ (placeGuestOrder t rnd wfail b s).orderId = some o.id)))
    ∧ ((∃ w ∈ s.users, w.email = guestEmail t) →
        placeGuestOrder t rnd wfail b s = ⟨500, none, s, []⟩) := by
  have hie : items.isEmpty = false := by
    cases items with
    | nil => exact absurd rfl hne
    | cons a l => rfl
  constructor
  · intro hfresh
    have hany : (s.users.any fun w => w.email = guestEmail t) = false := by
      rcases Bool.eq_false_or_eq_true (s.users.any fun w => w.email = guestEmail t) with h | h
      · rcases List.any_eq_true.mp h with ⟨w, hw, he⟩
        exact absurd (of_decide_eq_true he) (hfresh w hw)
      · exact h
    constructor
    · simp [placeGuestOrder, hib, hie, hany]
    · simp only [placeGuestOrder, hib, hie, hany]
      exact ⟨_, rfl, rfl, rfl, rfl, hfresh, _, rfl, rfl, rfl⟩
  · intro hex
    have hany : (s.users.any fun w => w.email = guestEmail t) = true :=
      List.any_eq_true.mpr (by simpa using hex)
    simp [placeGuestOrder, hib, hie, hany]

/-- C4 witness: on an empty store, a concrete guest checkout at time 42
answers 201 with the synthesized account. -/
theorem C4_amended_guest_account_witness :
    (placeGuestOrder 42 "r" (fun _ => false)
        ⟨some [⟨7, "Rice", 90, 2⟩], some 180, none⟩ ⟨[], [], [], [], 10⟩).status = 201 :=
  ((C4_amended_guest_account ⟨[], [], [], [], 10⟩ 42 "r" (fun _ => false)
      ⟨some [⟨7, "Rice", 90, 2⟩], some 180, none⟩ [⟨7, "Rice", 90, 2⟩]
      rfl (by decide)).1 (by simp)).1

/-- C7: admin product update of an existing product changes exactly the
fields present in the request; every omitted field, including the image
url when no new image file is uploaded, keeps its prior value, and every
other product as well as the orders and users are untouched. -/
theorem C7_product_partial_update (s : St) (pid : Nat) (b : ProductBody)
    (file : Option String) (p0 : Product)
    (hfind : s.products.find? (fun p => p.id = pid) = some p0) :
    (updateProductHandler pid b file s).1 = 200
    ∧ (updateProductHandler pid b file s).2.products.find? (fun p => p.id = pid)
        = some
          { id := p0.id
            name := b.name.getD p0.name
            description := b.description.getD p0.description
            price := match b.price with
              | some str => if str = "" then p0.price else jsNumber str
              | none => p0.price
            category := b.category.getD p0.category
            image := file.getD p0.image
            unit := (b.unit).getD p0.unit
            createdAt := p0.createdAt }
    ∧ (∀ q ∈ s.products, q.id ≠ pid → q ∈ (updateProductHandler pid b file s).2.products)
    ∧ (∀ q ∈ (updateProductHandler pid b file s).2.products, q.id ≠ pid → q ∈ s.products)
    ∧ (updateProductHandler pid b file s).2.orders = s.orders
    ∧ (updateProductHandler pid b file s).2.users = s.users := by
  have hp0 : (fun p : Product => decide (p.id = pid)) p0 = true :=
    @List.find?_some _ (fun p : Product => decide (p.id = pid)) _ _ hfind
  have hany : (s.products.any fun p => p.id = pid) = true :=
    List.any_eq_true.mpr ⟨p0, List.mem_of_find?_eq_some hfind, hp0⟩
  have hkeep : ∀ a : Product, a.id = pid →
      (applyProdUpdate (buildProductUpdate b file) a).id = pid := fun a ha => ha
  have hprods : (updateProductHandler pid b file s).2.products
      = s.products.map fun p =>
          if p.id = pid then applyProdUpdate (buildProductUpdate b file) p else p := by
    simp [updateProductHandler, hany]
  refine ⟨by simp [updateProductHandler, hany], ?_, ?_, ?_,
    by simp [updateProductHandler, hany], by simp [updateProductHandler, hany]⟩
  · rw [hprods]
    have := find?_map_update_key Product.id pid
      (applyProdUpdate (buildProductUpdate b file)) hkeep s.products
    rw [this, hfind]
    have hval : applyProdUpdate (buildProductUpdate b file) p0
        = { id := p0.id
            name := b.name.getD p0.name
            description := b.description.getD p0.description
            price := match b.price with
              | some str => if str = "" then p0.price else jsNumber str
              | none => p0.price
            category := b.category.getD p0.category
            image := file.getD p0.image
            unit := (b.unit).getD p0.unit
            createdAt := p0.createdAt } := by
      cases hbp : b.price with
      | none => simp [applyProdUpdate, buildProductUpdate, hbp]
      | some str =>
        by_cases hstr : str = "" <;>
          simp [applyProdUpdate, buildProductUpdate, hbp, hstr]
    rw [Option.map_some', hval]
  · intro q hq hne
    rw [hprods]
    exact mem_map_update_of_ne Product.id pid _ hq hne
  · intro q hq hne
    rw [hprods] at hq
    exact mem_of_mem_map_update_ne Product.id pid _ hkeep hq hne

/-- C7 witness: updating only the price of a concrete product keeps the
name, description, category, unit and image unchanged. -/
theorem C7_product_partial_update_witness :
    (updateProductHandler 7 ⟨none, none, some "95", none, none⟩ none
        ⟨[], [⟨7, "Rice", "Basmati", 90, "Essentials", "u.jpg", "1 kg", 0⟩], [], [], 10⟩).1
      = 200
    ∧ (updateProductHandler 7 ⟨none, none, some "95", none, none⟩ none
        ⟨[], [⟨7, "Rice", "Basmati", 90, "Essentials", "u.jpg", "1 kg", 0⟩],
          [], [], 10⟩).2.products.find? (fun p => p.id = 7)
      = some ⟨7, "Rice", "Basmati", 95, "Essentials", "u.jpg", "1 kg", 0⟩ := by
  have h := C7_product_partial_update
    ⟨[], [⟨7, "Rice", "Basmati", 90, "Essentials", "u.jpg", "1 kg", 0⟩], [], [], 10⟩
    7 ⟨none, none, some "95", none, none⟩ none
    ⟨7, "Rice", "Basmati", 90, "Essentials", "u.jpg", "1 kg", 0⟩ rfl
  refine ⟨h.1, ?_⟩
  rw [h.2.1]
  decide

/-- C8: a profile update by an authenticated account with the correct
current password and no other field leaves the store, and in particular
the account email and password hash, entirely unchanged; adding a new
password changes only the password hash of that account, leaving its
email and every other field, every other account and the rest of the
store unchanged. -/
theorem C8_profile_update_frame (s : St) (uid : Nat) (role : Role) (nm pw : String)
    (usr : User)
    (hids : s.users.Pairwise fun a b => a.id ≠ b.id)
    (hfind : s.users.find? (fun w => w.id = uid) = some usr)
    (hhash : usr.passwordHash = bcryptHash pw) :
    updateProfile ⟨uid, role, nm⟩ ⟨none, some pw, none⟩ s = (200, s)
    ∧ (∀ np : String, np ≠ "" →
        (updateProfile ⟨uid, role, nm⟩ ⟨none, some pw, some np⟩ s).1 = 200
        ∧ (updateProfile ⟨uid, role, nm⟩ ⟨none, some pw, some np⟩ s).2.users.find?
            (fun w => w.id = uid) = some { usr with passwordHash := bcryptHash np }
        ∧ (∀ w ∈ s.users, w.id ≠ uid →
            w ∈ (updateProfile ⟨uid, role, nm⟩ ⟨none, some pw, some np⟩ s).2.users)
        ∧ (updateProfile ⟨uid, role, nm⟩ ⟨none, some pw, some np⟩ s).2.products = s.products
        ∧ (updateProfile ⟨uid, role, nm⟩ ⟨none, some pw, some np⟩ s).2.orders = s.orders
        ∧ (updateProfile ⟨uid, role, nm⟩ ⟨none, some pw, some np⟩ s).2.sseClients
            = s.sseClients
        ∧ (updateProfile ⟨uid, role, nm⟩ ⟨none, some pw, some np⟩ s).2.nextId
            = s.nextId) := by
  have husrid : usr.id = uid :=
    of_decide_eq_true (@List.find?_some _ (fun w : User => decide (w.id = uid)) _ _ hfind)
  have husrmem : usr ∈ s.users := List.mem_of_find?_eq_some hfind
  have hcmp : bcryptCompare pw usr.passwordHash = true := by
    simp [bcryptCompare, hhash]
  constructor
  · have ha : updateProfile ⟨uid, role, nm⟩ ⟨none, some pw, none⟩ s
        = (200, { s with users := s.users.map fun w => if w.id = uid then usr else w }) := by
      simp [updateProfile, hfind, hcmp, truthy]
    have hmap : (s.users.map fun w => if w.id = uid then usr else w) = s.users :=
      map_update_id_key User.id uid usr fun w hw hk =>
        pairwise_ids_eq hids hw husrmem (hk.trans husrid.symm)
    rw [ha, hmap]
  · intro np hnp
    have hb : updateProfile ⟨uid, role, nm⟩ ⟨none, some pw, some np⟩ s
        = (200, { s with users := s.users.map fun w =>
            if w.id = uid then { usr with passwordHash := bcryptHash np } else w }) := by
      simp [updateProfile, hfind, hcmp, truthy, hnp]
    refine ⟨by rw [hb], ?_, ?_, by rw [hb], by rw [hb], by rw [hb], by rw [hb]⟩
    · rw [hb]
      have := find?_map_update_key User.id uid
        (fun _ => { usr with passwordHash := bcryptHash np })
        (fun a ha => husrid) s.users
      exact this.trans (by rw [hfind]; rfl)
    · intro w hw hne
      rw [hb]
      exact mem_map_update_of_ne User.id uid _ hw hne

/-- C8 witness: a concrete account updated with only the current password
keeps the whole store unchanged; adding a new password rewrites exactly
the stored hash. -/
theorem C8_profile_update_frame_witness :
    updateProfile ⟨3, Role.user, "U"⟩ ⟨none, some "old", none⟩
        ⟨[⟨3, "U", "u@x", bcryptHash "old", "", Role.user, [], [], 0⟩], [], [], [], 9⟩
      = (200, ⟨[⟨3, "U", "u@x", bcryptHash "old", "", Role.user, [], [], 0⟩], [], [], [], 9⟩)
    ∧ (updateProfile ⟨3, Role.user, "U"⟩ ⟨none, some "old", some "new"⟩
        ⟨[⟨3, "U", "u@x", bcryptHash "old", "", Role.user, [], [], 0⟩],
          [], [], [], 9⟩).2.users.find? (fun w => w.id = 3)
      = some ⟨3, "U", "u@x", bcryptHash "new", "", Role.user, [], [], 0⟩ := by
  have h := C8_profile_update_frame
    ⟨[⟨3, "U", "u@x", bcryptHash "old", "", Role.user, [], [], 0⟩], [], [], [], 9⟩
    3 Role.user "U" "old" ⟨3, "U", "u@x", bcryptHash "old", "", Role.user, [], [], 0⟩
    (by simp) rfl rfl
  exact ⟨h.1, (h.2 "new" (by decide)).2.1⟩

/-- C9: after a registration succeeds for an email, any second
registration call carrying the same email answers 400, creates no second
account, and leaves the state — the first account included — exactly as
it was after the first call. -/
theorem C9_duplicate_email (s : St) (t1 t2 : Nat) (b1 : RegisterBody) (e : String)
    (h1n : truthy b1.name = true) (h1e : b1.email = some e) (hene : e ≠ "")
    (h1p : truthy b1.password = true)
    (hfresh : ∀ u ∈ s.users, u.email ≠ e) :
    (register t1 b1 s).status = 201
    ∧ ∃ u1 : User,
        (register t1 b1 s).state.users = s.users ++ [u1]
        ∧ u1.email = e
        ∧ ∀ b2 : RegisterBody, b2.email = some e →
            register t2 b2 (register t1 b1 s).state
              = ⟨400, none, (register t1 b1 s).state⟩
            ∧ u1 ∈ (register t2 b2 (register t1 b1 s).state).state.users := by
  have h1etru : truthy b1.email = true := by
    rw [h1e]
    simpa [truthy] using hene
  have hcond1 : ¬ (¬ truthy b1.name = true ∨ ¬ truthy b1.email = true
      ∨ ¬ truthy b1.password = true) := by
    simp [h1n, h1etru, h1p]
  have hnone : s.users.find? (fun u => u.email = b1.email.getD "") = none := by
    apply List.find?_eq_none.mpr
    intro x hx
    simp [h1e]
    exact hfresh x hx
  have hrun : register t1 b1 s
      = ⟨201, some s.nextId,
          { s with
            users := s.users ++
              [{ id := s.nextId
                 name := b1.name.getD ""
                 email := b1.email.getD ""
                 passwordHash := bcryptHash (b1.password.getD "")
                 phone := b1.phone.getD ""
                 role := Role.user
                 cart := []
                 addresses := []
                 createdAt := t1 }]
            nextId := s.nextId + 1 }⟩ := by
    simp only [register, if_neg hcond1, hnone]
  refine ⟨by rw [hrun], ?_⟩
  refine ⟨_, by rw [hrun], by simp [h1e], ?_⟩
  intro b2 hb2
  have hmem1 : ({ id := s.nextId
                  name := b1.name.getD ""
                  email := b1.email.getD ""
                  passwordHash := bcryptHash (b1.password.getD "")
                  phone := b1.phone.getD ""
                  role := Role.user
                  cart := []
                  addresses := []
                  createdAt := t1 } : User) ∈ (register t1 b1 s).state.users := by
    rw [hrun]
    exact List.mem_append.mpr (Or.inr (List.mem_cons_self _ _))
  have hsecond : register t2 b2 (register t1 b1 s).state
      = ⟨400, none, (register t1 b1 s).state⟩ := by
    by_cases hc2 : ¬ truthy b2.name = true ∨ ¬ truthy b2.email = true
        ∨ ¬ truthy b2.password = true
    · simp only [register, if_pos hc2]
    · have hsome : ((register t1 b1 s).state.users.find?
          (fun u => u.email = b2.email.getD "")).isSome = true := by
        apply List.find?_isSome.mpr
        refine ⟨_, hmem1, ?_⟩
        simp [hb2, h1e]
      rcases Option.isSome_iff_exists.mp hsome with ⟨w, hw⟩
      generalize hS : (register t1 b1 s).state = s1 at hw ⊢
      simp only [register, if_neg hc2, hw]
  exact ⟨hsecond, by rw [hsecond]; exact hmem1⟩

/-- C9 witness: concrete duplicate registration on an empty store. -/
theorem C9_duplicate_email_witness :
    (register 1 ⟨some "A", some "a@x", some "pw", none⟩ ⟨[], [], [], [], 0⟩).status = 201 :=
  (C9_duplicate_email ⟨[], [], [], [], 0⟩ 1 2 ⟨some "A", some "a@x", some "pw", none⟩
    "a@x" (by decide) rfl (by decide) (by decide) (by simp)).1

/-- C10: GET /events registers a push subscriber with no authentication
or role check — the handler takes no credential — and a client subscribed
this way receives the next checkout broadcast: a payload serializing the
order summary, which carries the customer name, the delivery address
with its phone, the items and the total. -/
theorem C10_events_open_subscription (s : St) (cid t : Nat) (rnd : String)
    (wfail : Nat → Bool) (b : OrderBody) (items : List OrderItem) (u : Claims)
    (hib : b.items = some items) (hne : items ≠ []) (hw : wfail cid = false) :
    (subscribeEvents cid s).sseClients = s.sseClients ++ [cid]
    ∧ ((∀ w ∈ s.users, w.email ≠ guestEmail t) →
        ∃ summary : OrderSummary,
          (cid, ssePayload summary)
              ∈ (placeGuestOrder t rnd wfail b (subscribeEvents cid s)).deliveries
          ∧ summary.deliveryAddress = b.deliveryAddress
          ∧ summary.items = items
          ∧ summary.total = b.total)
    ∧ (∀ usr, (subscribeEvents cid s).users.find? (fun w => w.id = u.id) = some usr →
        ∃ summary : OrderSummary,
          (cid, ssePayload summary)
              ∈ (placeOrder t wfail u b (subscribeEvents cid s)).deliveries
          ∧ summary.userName = usr.name
          ∧ summary.deliveryAddress = b.deliveryAddress
          ∧ summary.items = items
          ∧ summary.total = b.total) := by
  have hie : items.isEmpty = false := by
    cases items with
    | nil => exact absurd rfl hne
    | cons a l => rfl
  have hmem : cid ∈ (subscribeEvents cid s).sseClients :=
    List.mem_append.mpr (Or.inr (List.mem_cons_self _ _))
  refine ⟨rfl, ?_, ?_⟩
  · intro hfresh
    have hany : ((subscribeEvents cid s).users.any fun w => w.email = guestEmail t)
        = false := by
      rcases Bool.eq_false_or_eq_true
        ((subscribeEvents cid s).users.any fun w => w.email = guestEmail t) with h | h
      · rcases List.any_eq_true.mp h with ⟨w, hw2, he⟩
        exact absurd (of_decide_eq_true he) (hfresh w hw2)
      · exact h
    have hdel : (placeGuestOrder t rnd wfail b (subscribeEvents cid s)).deliveries
        = broadcastNewOrder (subscribeEvents cid s).sseClients wfail
            { id := (subscribeEvents cid s).nextId + 1
              userName := match b.deliveryAddress with
                | some a => if a.name = "" then "Guest" else a.name
                | none => "Guest"
              deliveryAddress := b.deliveryAddress
              items := items
              total := b.total
              createdAt := t
              status := OrderStatus.pending } := by
      simp [placeGuestOrder, hib, hie, hany]
    refine ⟨{ id := (subscribeEvents cid s).nextId + 1
              userName := match b.deliveryAddress with
                | some a => if a.name = "" then "Guest" else a.name
                | none => "Guest"
              deliveryAddress := b.deliveryAddress
              items := items
              total := b.total
              createdAt := t
              status := OrderStatus.pending }, ?_, rfl, rfl, rfl⟩
    rw [hdel]
    exact broadcast_delivers hmem hw
  · intro usr hfind
    have hdel : (placeOrder t wfail u b (subscribeEvents cid s)).deliveries
        = broadcastNewOrder (subscribeEvents cid s).sseClients wfail
            { id := (subscribeEvents cid s).nextId
              userName := usr.name
              deliveryAddress := b.deliveryAddress
              items := items
              total := b.total
              createdAt := t
              status := OrderStatus.pending } := by
      simp [placeOrder, hib, hie, hfind]
    refine ⟨{ id := (subscribeEvents cid s).nextId
              userName := usr.name
              deliveryAddress := b.deliveryAddress
              items := items
              total := b.total
              createdAt := t
              status := OrderStatus.pending }, ?_, rfl, rfl, rfl, rfl⟩
    rw [hdel]
    exact broadcast_delivers hmem hw

/-- C10 witness: a concrete client subscribing on an empty store receives
the payload of the next guest checkout. -/
theorem C10_events_open_subscription_witness :
    (subscribeEvents 5 ⟨[], [], [], [], 10⟩).sseClients = [5]
    ∧ ∃ summary : OrderSummary,
        (5, ssePayload summary)
            ∈ (placeGuestOrder 42 "r" (fun _ => false)
                ⟨some [⟨7, "Rice", 90, 2⟩], some 180, none⟩
                (subscribeEvents 5 ⟨[], [], [], [], 10⟩)).deliveries
        ∧ summary.deliveryAddress = none
        ∧ summary.items = [⟨7, "Rice", 90, 2⟩]
        ∧ summary.total = some 180 := by
  have h := C10_events_open_subscription ⟨[], [], [], [], 10⟩ 5 42 "r" (fun _ => false)
    ⟨some [⟨7, "Rice", 90, 2⟩], some 180, none⟩ [⟨7, "Rice", 90, 2⟩]
    ⟨0, Role.user, "u"⟩ rfl (by decide) rfl
  exact ⟨h.1, h.2.1 (by simp)⟩

end Grocery
